import Mathlib

/-!
Verification of the client-side wire-protocol helpers of the v-c-it
integration-test repository.  The helpers are shallowly embedded: each C
function becomes a Lean function over an explicit environment that records
the outcome of every external call (transport, decoder, allocator, crypto
suite), and the control flow (the goto/cleanup chains) is translated
branch by branch.  Machine integers are modelled as Nat; the protocol
status codes of include/helpers/status_codes.h keep their source values.
-/

/- ===== status codes from include/helpers/status_codes.h ===== -/

def STATUS_SUCCESS : Nat := 0

def ERROR_GET_BLOCK_OFFSET : Nat := 11

def ERROR_AGENTD_SOCKET_CONNECT : Nat := 34

def ERROR_PRIVATE_CERT_STAT : Nat := 35

def ERROR_PRIVATE_CERT_BUFFER_CREATE : Nat := 36

def ERROR_PRIVATE_CERT_FILE_OPEN : Nat := 37

def ERROR_PRIVATE_CERT_FILE_READ : Nat := 38

def ERROR_PRIVATE_CERT_FILE_PARSE : Nat := 39

def ERROR_SEND_LATEST_BLOCK_ID_REQ : Nat := 40

def ERROR_RECV_LATEST_BLOCK_ID_RESP : Nat := 41

def ERROR_DECODE_LATEST_BLOCK_ID : Nat := 42

def ERROR_LATEST_BLOCK_ID_REQUEST_ID : Nat := 43

def ERROR_LATEST_BLOCK_ID_STATUS : Nat := 44

def ERROR_LATEST_BLOCK_ID_OFFSET : Nat := 45

def ERROR_DECODE_LATEST_BLOCK_ID_DATA : Nat := 46

def ERROR_SEND_HANDSHAKE_REQ : Nat := 101

def ERROR_RECV_HANDSHAKE_RESP : Nat := 102

def ERROR_SERVER_ID_MISMATCH : Nat := 103

def ERROR_SERVER_KEY_MISMATCH : Nat := 104

def ERROR_SEND_HANDSHAKE_ACK : Nat := 105

def ERROR_RECV_HANDSHAKE_ACK : Nat := 106

def ERROR_DECODE_HANDSHAKE_ACK : Nat := 107

def ERROR_HANDSHAKE_ACK_REQUEST_ID : Nat := 108

def ERROR_HANDSHAKE_ACK_STATUS : Nat := 109

def ERROR_SEND_STATUS_REQ : Nat := 122

def ERROR_RECV_STATUS_RESP : Nat := 123

def ERROR_DECODE_STATUS : Nat := 124

def ERROR_STATUS_REQUEST_ID : Nat := 125

def ERROR_STATUS_STATUS : Nat := 126

def ERROR_STATUS_OFFSET : Nat := 127

def ERROR_DECODE_STATUS_DATA : Nat := 128

/- ===== constants supplied by external headers, absent from src ===== -/

/-- Modelled from the spec: the numeric protocol request id for
LATEST_BLOCK_ID_GET lives in the external vcblockchain headers; only its
identity and distinctness from the other request ids is used here. -/
def PROTOCOL_REQ_ID_LATEST_BLOCK_ID_GET : Nat := 2

/-- Modelled from the spec: the numeric protocol request id for
BLOCK_BY_ID_GET lives in the external vcblockchain headers. -/
def PROTOCOL_REQ_ID_BLOCK_BY_ID_GET : Nat := 3

/-- Modelled from the spec: the numeric protocol request id for
HANDSHAKE_ACKNOWLEDGE lives in the external vcblockchain headers. -/
def PROTOCOL_REQ_ID_HANDSHAKE_ACKNOWLEDGE : Nat := 1

/-- Modelled from the spec: the numeric protocol request id for STATUS_GET
lives in the external vcblockchain headers. -/
def PROTOCOL_REQ_ID_STATUS_GET : Nat := 16

/-- Modelled from the spec: the numeric protocol request id for
EXTENDED_API_SENDRECV lives in the external vcblockchain headers. -/
def PROTOCOL_REQ_ID_EXTENDED_API_SENDRECV : Nat := 19

/-- Modelled from the spec: the numeric protocol request id for the
server-initiated EXTENDED_API_CLIENTREQ lives in the external vcblockchain
headers. -/
def PROTOCOL_REQ_ID_EXTENDED_API_CLIENTREQ : Nat := 20

/-- Modelled from the spec: the numeric protocol request id for
EXTENDED_API_SENDRESP lives in the external vcblockchain headers. -/
def PROTOCOL_REQ_ID_EXTENDED_API_SENDRESP : Nat := 21

/-- Modelled from the spec: the root-block sentinel UUID is sixteen bytes
of ff (spec section 8, scenario 2); the constant itself lives in the
external vccert library. -/
def vccert_certificate_type_uuid_root_block : List Nat := List.replicate 16 0xff

/-- Modelled from the spec: the field id of the wrapped-transaction-tuple
field of a block certificate lives in the external vccert headers; only
its identity is used. -/
def VCCERT_FIELD_TYPE_WRAPPED_TRANSACTION_TUPLE : Nat := 0xe0

/-- Modelled from the spec: `ERROR_PING_REQUEST_SEND` and its siblings are
referenced by send_and_verify_ping_request but absent from the emitted
status_codes.h (spec section 9); per the spec they are allocated as
distinct codes in the same numeric space. -/
def ERROR_PING_REQUEST_SEND : Nat := 150

/-- Modelled from the spec: companion code to `ERROR_PING_REQUEST_SEND`. -/
def ERROR_PING_RESPONSE_RECEIVE : Nat := 151

/-- Modelled from the spec: companion code to `ERROR_PING_REQUEST_SEND`. -/
def ERROR_PING_RESPONSE_DECODE_HEADER : Nat := 152

/-- Modelled from the spec: companion code to `ERROR_PING_REQUEST_SEND`. -/
def ERROR_PING_RESPONSE_ID : Nat := 153

/-- Modelled from the spec: companion code to `ERROR_PING_REQUEST_SEND`. -/
def ERROR_PING_RESPONSE_STATUS_CODE : Nat := 154

/-- Modelled from the spec: companion code to `ERROR_PING_REQUEST_SEND`. -/
def ERROR_PING_RESPONSE_OFFSET : Nat := 155

/-- Modelled from the spec: companion code to `ERROR_PING_REQUEST_SEND`. -/
def ERROR_PING_RESPONSE_DECODE : Nat := 156

/-- Modelled from the spec: the `ERROR_READ_EXTENDED_API` family referenced
by the ping sentinel is absent from the emitted status_codes.h; allocated
as distinct codes in the same numeric space. -/
def ERROR_READ_EXTENDED_API_RESPONSE : Nat := 160

/-- Modelled from the spec: companion code to
`ERROR_READ_EXTENDED_API_RESPONSE`. -/
def ERROR_READ_EXTENDED_API_RESPONSE_DECODE_HEADER : Nat := 161

/-- Modelled from the spec: companion code to
`ERROR_READ_EXTENDED_API_RESPONSE`. -/
def ERROR_READ_EXTENDED_API_BAD_REQUEST_ID : Nat := 162

/-- Modelled from the spec: companion code to
`ERROR_READ_EXTENDED_API_RESPONSE`. -/
def ERROR_READ_EXTENDED_API_DECODE_RESPONSE : Nat := 163

/-- Modelled from the spec: companion code to
`ERROR_READ_EXTENDED_API_RESPONSE`. -/
def ERROR_READ_EXTENDED_API_INVALID_VERB : Nat := 164

/-- Modelled from the spec: companion code to
`ERROR_READ_EXTENDED_API_RESPONSE`. -/
def ERROR_READ_EXTENDED_API_OUT_OF_MEMORY : Nat := 165

/-- Modelled from the spec: companion code to
`ERROR_READ_EXTENDED_API_RESPONSE`. -/
def ERROR_WRITE_EXTENDED_API_RESPONSE : Nat := 166

/-- UUID of the ping verb, from src/helpers/ping_protocol/verbs.c. -/
def HELPERS_PING_PROTOCOL_VERB_PING : List Nat :=
  [0x70, 0xce, 0x5e, 0x26, 0x7e, 0x2c, 0x45, 0x97,
   0xa2, 0x19, 0x02, 0x09, 0x58, 0xf7, 0xcf, 0x99]

/- ===== wire-protocol data model ===== -/

/-- The canonical response header decoded by
vcblockchain_protocol_response_decode_header: request_id, offset and
status, each a 32-bit big-endian integer on the wire. -/
structure ProtocolHeader where
  request_id : Nat
  offset : Nat
  status : Nat
deriving DecidableEq

/-- The per-session IV counters of an established session. -/
structure WireState where
  clientIV : Nat
  serverIV : Nat
deriving DecidableEq

/-- Environment of one request/response round trip: the outcome of each
external call the helper makes, 0 meaning success.  `header` is the value
decoded by vcblockchain_protocol_response_decode_header when `headerErr`
is 0; `respBlockId` is the block id carried by a decoded
latest-block-id-get response body; `allocErr` is the outcome of the
payload buffer allocation used only by the ping helper. -/
structure WireEnv where
  sendErr : Nat
  recvErr : Nat
  headerErr : Nat
  header : ProtocolHeader
  bodyErr : Nat
  respBlockId : List Nat
  allocErr : Nat
deriving DecidableEq

/-- Result of a modelled helper run: the returned status code, whether the
helper reached the body-decode step, and the final IV counters. -/
structure HelperRun where
  retval : Nat
  bodyDecoded : Bool
  state : WireState
deriving DecidableEq

/-- Modelled from the spec (section 4.5): a vcblockchain_protocol_sendreq
call is an authenticated-encrypted send under the client IV; on success it
increments client_iv by exactly one, on failure it leaves the session
state unchanged.  The first component is the underlying status code. -/
def protocol_sendreq (err : Nat) (s : WireState) : Nat × WireState :=
  if err = 0 then (0, ⟨s.clientIV + 1, s.serverIV⟩) else (err, s)

/-- Modelled from the spec (section 4.5): vcblockchain_protocol_recvresp
reads and decrypts one frame under the server IV; on success it increments
server_iv by exactly one, on failure it leaves the session state
unchanged. -/
def protocol_recvresp (err : Nat) (s : WireState) : Nat × WireState :=
  if err = 0 then (0, ⟨s.clientIV, s.serverIV + 1⟩) else (err, s)

/- ===== helpers (translated from src/src/helpers) ===== -/

/-- Embedding of src/src/helpers/get_and_verify_last_block_id.c: send the
LATEST_BLOCK_ID_GET request with offset 0x1337, receive a response, decode
the header, check request id, status and offset in that order, then decode
the body. -/
def get_and_verify_last_block_id (s : WireState) (env : WireEnv) : HelperRun :=
  let sr := protocol_sendreq env.sendErr s
  if sr.1 ≠ STATUS_SUCCESS then ⟨ERROR_SEND_LATEST_BLOCK_ID_REQ, false, sr.2⟩ else
  let rr := protocol_recvresp env.recvErr sr.2
  if rr.1 ≠ STATUS_SUCCESS then ⟨ERROR_RECV_LATEST_BLOCK_ID_RESP, false, rr.2⟩ else
  if env.headerErr ≠ STATUS_SUCCESS then ⟨ERROR_DECODE_LATEST_BLOCK_ID, false, rr.2⟩ else
  if env.header.request_id ≠ PROTOCOL_REQ_ID_LATEST_BLOCK_ID_GET then
    ⟨ERROR_LATEST_BLOCK_ID_REQUEST_ID, false, rr.2⟩ else
  if env.header.status ≠ STATUS_SUCCESS then ⟨ERROR_LATEST_BLOCK_ID_STATUS, false, rr.2⟩ else
  if env.header.offset ≠ 0x1337 then ⟨ERROR_LATEST_BLOCK_ID_OFFSET, false, rr.2⟩ else
  if env.bodyErr ≠ STATUS_SUCCESS then ⟨ERROR_DECODE_LATEST_BLOCK_ID_DATA, true, rr.2⟩ else
  ⟨STATUS_SUCCESS, true, rr.2⟩

/-- Embedding of the post-handshake portion of
src/src/test_get_latest_block_empty/main.c: the inline client sends
LATEST_BLOCK_ID_GET with offset 0x1337, decodes the header, checks request
id and status, decodes the body and compares the decoded block id to the
root block UUID.  Its exit codes 200..206 are the source literals. -/
def test_get_latest_block_empty_main (s : WireState) (env : WireEnv) : HelperRun :=
  let sr := protocol_sendreq env.sendErr s
  if sr.1 ≠ STATUS_SUCCESS then ⟨200, false, sr.2⟩ else
  let rr := protocol_recvresp env.recvErr sr.2
  if rr.1 ≠ STATUS_SUCCESS then ⟨201, false, rr.2⟩ else
  if env.headerErr ≠ STATUS_SUCCESS then ⟨202, false, rr.2⟩ else
  if env.header.request_id ≠ PROTOCOL_REQ_ID_LATEST_BLOCK_ID_GET then ⟨203, false, rr.2⟩ else
  if env.header.status ≠ STATUS_SUCCESS then ⟨204, false, rr.2⟩ else
  if env.bodyErr ≠ STATUS_SUCCESS then ⟨205, true, rr.2⟩ else
  if env.respBlockId ≠ vccert_certificate_type_uuid_root_block then ⟨206, true, rr.2⟩ else
  ⟨STATUS_SUCCESS, true, rr.2⟩

/-- Embedding of src/src/helpers/get_and_verify_status.c: send STATUS_GET
with offset 0x3133, receive, decode the header, check request id, status
and offset in that order, then decode the body. -/
def get_and_verify_status (s : WireState) (env : WireEnv) : HelperRun :=
  let sr := protocol_sendreq env.sendErr s
  if sr.1 ≠ STATUS_SUCCESS then ⟨ERROR_SEND_STATUS_REQ, false, sr.2⟩ else
  let rr := protocol_recvresp env.recvErr sr.2
  if rr.1 ≠ STATUS_SUCCESS then ⟨ERROR_RECV_STATUS_RESP, false, rr.2⟩ else
  if env.headerErr ≠ STATUS_SUCCESS then ⟨ERROR_DECODE_STATUS, false, rr.2⟩ else
  if env.header.request_id ≠ PROTOCOL_REQ_ID_STATUS_GET then
    ⟨ERROR_STATUS_REQUEST_ID, false, rr.2⟩ else
  if env.header.status ≠ STATUS_SUCCESS then ⟨ERROR_STATUS_STATUS, false, rr.2⟩ else
  if env.header.offset ≠ 0x3133 then ⟨ERROR_STATUS_OFFSET, false, rr.2⟩ else
  if env.bodyErr ≠ STATUS_SUCCESS then ⟨ERROR_DECODE_STATUS_DATA, true, rr.2⟩ else
  ⟨STATUS_SUCCESS, true, rr.2⟩

/-- Embedding of src/src/helpers/get_and_verify_block.c: send
BLOCK_BY_ID_GET with offset 0x1234, receive, decode the header, check
request id, status and offset in that order, then decode the body.  The
status codes 215..221 are the literals hardcoded in the source. -/
def get_and_verify_block (s : WireState) (env : WireEnv) : HelperRun :=
  let sr := protocol_sendreq env.sendErr s
  if sr.1 ≠ STATUS_SUCCESS then ⟨215, false, sr.2⟩ else
  let rr := protocol_recvresp env.recvErr sr.2
  if rr.1 ≠ STATUS_SUCCESS then ⟨216, false, rr.2⟩ else
  if env.headerErr ≠ STATUS_SUCCESS then ⟨217, false, rr.2⟩ else
  if env.header.request_id ≠ PROTOCOL_REQ_ID_BLOCK_BY_ID_GET then ⟨218, false, rr.2⟩ else
  if env.header.status ≠ STATUS_SUCCESS then ⟨219, false, rr.2⟩ else
  if env.header.offset ≠ 0x1234 then ⟨220, false, rr.2⟩ else
  if env.bodyErr ≠ STATUS_SUCCESS then ⟨221, true, rr.2⟩ else
  ⟨STATUS_SUCCESS, true, rr.2⟩

/-- Embedding of src/src/helpers/send_and_verify_ping_request.c.  After
the payload allocation, send and receive, the three header checks run in
sequence with no early exit: each failing check overwrites retval, so the
last failing check wins, and the body is decoded exactly when retval is
still STATUS_SUCCESS after all three. -/
def send_and_verify_ping_request (s : WireState) (offset : Nat) (env : WireEnv) : HelperRun :=
  if env.allocErr ≠ STATUS_SUCCESS then ⟨env.allocErr, false, s⟩ else
  let sr := protocol_sendreq env.sendErr s
  if sr.1 ≠ STATUS_SUCCESS then ⟨ERROR_PING_REQUEST_SEND, false, sr.2⟩ else
  let rr := protocol_recvresp env.recvErr sr.2
  if rr.1 ≠ STATUS_SUCCESS then ⟨ERROR_PING_RESPONSE_RECEIVE, false, rr.2⟩ else
  if env.headerErr ≠ STATUS_SUCCESS then ⟨ERROR_PING_RESPONSE_DECODE_HEADER, false, rr.2⟩ else
  let r1 := if env.header.request_id ≠ PROTOCOL_REQ_ID_EXTENDED_API_SENDRECV then
    ERROR_PING_RESPONSE_ID else STATUS_SUCCESS
  let r2 := if env.header.status ≠ STATUS_SUCCESS then ERROR_PING_RESPONSE_STATUS_CODE else r1
  let r3 := if offset ≠ env.header.offset then ERROR_PING_RESPONSE_OFFSET else r2
  if r3 ≠ STATUS_SUCCESS then ⟨r3, false, rr.2⟩ else
  if env.bodyErr ≠ STATUS_SUCCESS then ⟨ERROR_PING_RESPONSE_DECODE, true, rr.2⟩ else
  ⟨STATUS_SUCCESS, true, rr.2⟩

/- ===== find_transaction_in_block (purely local) ===== -/

/-- One parsed field of a certificate: its 16-bit field id and its raw
bytes.  The certificate encoding itself is opaque and parsed by the
supplied vccert parser; a certificate is modelled as its parsed field
list. -/
structure CertField where
  ftype : Nat
  bytes : List Nat
deriving DecidableEq

/-- The do/while loop of src/src/helpers/find_transaction_in_block.c over
the successive wrapped-transaction-tuple fields delivered by
vccert_parser_find_short / vccert_parser_find_next: return STATUS_SUCCESS
on the first byte-wise match (size equality plus crypto_memcmp), and the
source literal 241 when the entries are exhausted. -/
def find_txn_loop (txn : List Nat) : List (List Nat) → Nat
  | [] => 241
  | b :: rest => if b = txn then STATUS_SUCCESS else find_txn_loop txn rest

/-- Embedding of src/src/helpers/find_transaction_in_block.c: iterate over
every WRAPPED_TRANSACTION_TUPLE field of the block certificate and
byte-compare it against the target transaction certificate.  The function
touches no socket and no session state; its only inputs are the two
certificates.  (The parser-init failure path of the source, literal 240,
corresponds to an unparseable block certificate and so does not arise on
the parsed-field representation.) -/
def find_transaction_in_block (blockFields : List CertField) (txn : List Nat) : Nat :=
  find_txn_loop txn
    ((blockFields.filter
      (fun f => f.ftype == VCCERT_FIELD_TYPE_WRAPPED_TRANSACTION_TUPLE)).map CertField.bytes)

/- ===== certificate loading ===== -/

/-- Environment for entity_private_certificate_create_from_file: the
outcome of each of the five stages (stat, buffer allocation, open, read,
decode), 0 meaning success, together with the stat-reported file size and
the number of bytes the read delivered. -/
structure FileEnv where
  statErr : Nat
  fileSize : Nat
  bufferErr : Nat
  openErr : Nat
  readErr : Nat
  readBytes : Nat
  decodeErr : Nat
deriving DecidableEq

/-- Embedding of
src/src/helpers/entity_private_certificate_create_from_file.c: stat the
file, allocate a buffer of the stat-reported size, open, read (a read that
reports success but delivers a byte count different from the buffer size
is also a read failure), decode; each stage failure maps to its own
ERROR_PRIVATE_CERT code. -/
def entity_private_certificate_create_from_file (env : FileEnv) : Nat :=
  if env.statErr ≠ 0 then ERROR_PRIVATE_CERT_STAT else
  if env.bufferErr ≠ 0 then ERROR_PRIVATE_CERT_BUFFER_CREATE else
  if env.openErr ≠ 0 then ERROR_PRIVATE_CERT_FILE_OPEN else
  if env.readErr ≠ 0 ∨ env.readBytes ≠ env.fileSize then ERROR_PRIVATE_CERT_FILE_READ else
  if env.decodeErr ≠ 0 then ERROR_PRIVATE_CERT_FILE_PARSE else
  STATUS_SUCCESS

/- ===== ping sentinel dispatch ===== -/

/-- Environment of one iteration of the ping sentinel's
read_decode_and_dispatch_request: outcomes of the two receives, the two
header decodes, the client-request body decode and the response-body
allocation, together with the decoded values (header, verb id and 64-bit
offset of the client request, second header). -/
structure SentinelEnv where
  recvErr : Nat
  headerErr : Nat
  header : ProtocolHeader
  reqDecodeErr : Nat
  reqVerbId : List Nat
  reqOffset : Nat
  allocErr : Nat
  sendErr : Nat
  recv2Err : Nat
  header2Err : Nat
  header2 : ProtocolHeader
deriving DecidableEq

/-- Result of one sentinel dispatch iteration: the returned status code
and the list of (offset, status) pairs of every EXTENDED_API_SENDRESP
message actually transmitted. -/
structure SentinelRun where
  retval : Nat
  sent : List (Nat × Nat)
deriving DecidableEq

/-- Embedding of read_decode_and_dispatch_request from
src/src/ping_sentinel/main.c: receive one server-initiated message, decode
its header, require request id EXTENDED_API_CLIENTREQ, decode the client
request, compare its verb id to the ping verb UUID, allocate the response
body, send exactly one EXTENDED_API_SENDRESP carrying the request's own
offset with status 0 (ping verb) or the invalid-verb fail code, then
receive and check the agent's SENDRESP acknowledgement. -/
def read_decode_and_dispatch_request (env : SentinelEnv) : SentinelRun :=
  if env.recvErr ≠ STATUS_SUCCESS then ⟨ERROR_READ_EXTENDED_API_RESPONSE, []⟩ else
  if env.headerErr ≠ STATUS_SUCCESS then
    ⟨ERROR_READ_EXTENDED_API_RESPONSE_DECODE_HEADER, []⟩ else
  if env.header.request_id ≠ PROTOCOL_REQ_ID_EXTENDED_API_CLIENTREQ then
    ⟨ERROR_READ_EXTENDED_API_BAD_REQUEST_ID, []⟩ else
  if env.reqDecodeErr ≠ STATUS_SUCCESS then ⟨ERROR_READ_EXTENDED_API_DECODE_RESPONSE, []⟩ else
  let fail_response := env.reqVerbId ≠ HELPERS_PING_PROTOCOL_VERB_PING
  if env.allocErr ≠ STATUS_SUCCESS then ⟨ERROR_READ_EXTENDED_API_OUT_OF_MEMORY, []⟩ else
  let st := if fail_response then ERROR_READ_EXTENDED_API_INVALID_VERB else STATUS_SUCCESS
  if env.sendErr ≠ STATUS_SUCCESS then ⟨ERROR_WRITE_EXTENDED_API_RESPONSE, []⟩ else
  let sent := [(env.reqOffset, st)]
  if env.recv2Err ≠ STATUS_SUCCESS then ⟨ERROR_READ_EXTENDED_API_RESPONSE, sent⟩ else
  if env.header2Err ≠ STATUS_SUCCESS then
    ⟨ERROR_READ_EXTENDED_API_RESPONSE_DECODE_HEADER, sent⟩ else
  if env.header2.request_id ≠ PROTOCOL_REQ_ID_EXTENDED_API_SENDRESP then
    ⟨ERROR_READ_EXTENDED_API_BAD_REQUEST_ID, sent⟩ else
  ⟨STATUS_SUCCESS, sent⟩

/- ===== agentd_connection_init (handshake and resource discipline) ===== -/

/-- The crypto suite facade (spec section 4.2): only the key-derivation
output size and the key-agreement function are needed here; the contract
that kex returns a buffer of exactly keySize bytes is carried as a proof
field. -/
structure CryptoSuite where
  keySize : Nat
  kex : List Nat → List Nat → List Nat → List Nat → List Nat
  kex_size : ∀ a b c d, (kex a b c d).length = keySize

/-- The heap resources acquired by agentd_connection_init, in acquisition
order: the client private certificate, the server public certificate, the
socket, the two client nonces, the copies received in the handshake
response, the derived shared secret and the acknowledgement response
buffer. -/
inductive ConnRes where
  | privCert
  | serverCert
  | sock
  | keyNonce
  | challengeNonce
  | pubkeyCopy
  | srvChallengeNonce
  | sharedSecret
  | response
deriving DecidableEq

/-- Environment of one agentd_connection_init run: the outcome of every
external call (0 meaning success), the identity material decoded from the
two certificate files, and the handshake-response fields delivered by
vcblockchain_protocol_recvresp_handshake_request. -/
structure ConnEnv where
  privCertErr : Nat
  pubCertErr : Nat
  sockErr : Nat
  clientIdErr : Nat
  clientPubkeyErr : Nat
  clientPrivkeyErr : Nat
  serverIdErr : Nat
  serverPubkeyErr : Nat
  pinnedServerId : List Nat
  pinnedServerKey : List Nat
  clientPrivKey : List Nat
  clientKeyNonce : List Nat
  sendReqErr : Nat
  recvRespErr : Nat
  srvIdFromServer : List Nat
  srvPubkeyFromServer : List Nat
  srvKeyNonce : List Nat
  sendAckErr : Nat
  recvAckErr : Nat
  ackDecodeErr : Nat
  ackHeader : ProtocolHeader
  serverCertReleaseErr : Nat
  privCertReleaseErr : Nat

/-- State of an agentd_connection_init run when a cleanup label is
entered: the status code to return, the `success` flag of the source, the
resources still held, the IV counters and the derived shared secret. -/
structure ConnSt where
  retval : Nat
  success : Bool
  held : List ConnRes
  clientIV : Nat
  serverIV : Nat
  sharedSecret : List Nat
deriving DecidableEq

/-- Disposal of one held resource: remove its first occurrence from the
held list. -/
def conn_erase : List ConnRes → ConnRes → List ConnRes
  | [], _ => []
  | x :: xs, r => if x = r then xs else x :: conn_erase xs r

/-- The `done` label of agentd_connection_init: when cleanup after a
successful handshake itself failed, dispose the shared secret and the
socket and release the private certificate so that the caller owns
nothing on an error return. -/
def conn_done (env : ConnEnv) (st : ConnSt) : ConnSt :=
  if st.success ∧ st.retval ≠ 0 then
    { st with
      held := conn_erase (conn_erase (conn_erase st.held .sharedSecret) .sock) .privCert,
      retval := if env.privCertReleaseErr ≠ 0 then env.privCertReleaseErr else st.retval }
  else st

/-- The `cleanup_cert` label: on the failure path, release the client
private certificate, folding a failing release into the returned code. -/
def conn_cleanup_cert (env : ConnEnv) (st : ConnSt) : ConnSt :=
  conn_done env <|
    if st.success then st
    else
      { st with
        held := conn_erase st.held .privCert,
        retval := if env.privCertReleaseErr ≠ 0 then env.privCertReleaseErr else st.retval }

/-- The `cleanup_server_cert` label: release the server public certificate
on every path, folding a failing release into the returned code. -/
def conn_cleanup_server_cert (env : ConnEnv) (st : ConnSt) : ConnSt :=
  conn_cleanup_cert env
    { st with
      held := conn_erase st.held .serverCert,
      retval := if env.serverCertReleaseErr ≠ 0 then env.serverCertReleaseErr else st.retval }

/-- The `cleanup_sock` label: on the failure path, dispose the socket. -/
def conn_cleanup_sock (env : ConnEnv) (st : ConnSt) : ConnSt :=
  conn_cleanup_server_cert env
    (if st.success then st else { st with held := conn_erase st.held .sock })

/-- The `cleanup_handshake_req` label: dispose the client key nonce and
challenge nonce. -/
def conn_cleanup_handshake_req (env : ConnEnv) (st : ConnSt) : ConnSt :=
  conn_cleanup_sock env
    { st with held := conn_erase (conn_erase st.held .keyNonce) .challengeNonce }

/-- The `cleanup_handshake_resp` label: dispose the received server public
key copy and server challenge nonce, and on the failure path also the
shared secret. -/
def conn_cleanup_handshake_resp (env : ConnEnv) (st : ConnSt) : ConnSt :=
  conn_cleanup_handshake_req env <|
    let st1 := { st with held := conn_erase (conn_erase st.held .pubkeyCopy) .srvChallengeNonce }
    if st.success then st1 else { st1 with held := conn_erase st1.held .sharedSecret }

/-- The `cleanup_resp` label: dispose the acknowledgement response
buffer. -/
def conn_cleanup_resp (env : ConnEnv) (st : ConnSt) : ConnSt :=
  conn_cleanup_handshake_resp env { st with held := conn_erase st.held .response }

/-- Embedding of src/src/helpers/agentd_connection_init.c: load the client
private and server public certificates, connect, extract the identity
material, run the four-step handshake (request, verified response with
pinned-identity comparison, acknowledgement via the secure envelope,
acknowledgement response), and run the goto cleanup chain of the source on
every exit path.  The shared secret is the kex output over the client
private encryption key, the received server public key and the two key
nonces (spec section 4.4, step 2); the acknowledgement send initializes
both IV counters to 1 and advances the client IV through the secure
envelope (spec section 4.4, steps 3 and 4). -/
def agentd_connection_init (suite : CryptoSuite) (env : ConnEnv) : ConnSt :=
  if env.privCertErr ≠ 0 then
    conn_done env ⟨env.privCertErr, false, [], 0, 0, []⟩ else
  if env.pubCertErr ≠ 0 then
    conn_cleanup_cert env ⟨env.pubCertErr, false, [.privCert], 0, 0, []⟩ else
  if env.sockErr ≠ 0 then
    conn_cleanup_server_cert env
      ⟨ERROR_AGENTD_SOCKET_CONNECT, false, [.privCert, .serverCert], 0, 0, []⟩ else
  if env.clientIdErr ≠ 0 then
    conn_cleanup_sock env
      ⟨env.clientIdErr, false, [.privCert, .serverCert, .sock], 0, 0, []⟩ else
  if env.clientPubkeyErr ≠ 0 then
    conn_cleanup_sock env
      ⟨env.clientPubkeyErr, false, [.privCert, .serverCert, .sock], 0, 0, []⟩ else
  if env.clientPrivkeyErr ≠ 0 then
    conn_cleanup_sock env
      ⟨env.clientPrivkeyErr, false, [.privCert, .serverCert, .sock], 0, 0, []⟩ else
  if env.serverIdErr ≠ 0 then
    conn_cleanup_sock env
      ⟨env.serverIdErr, false, [.privCert, .serverCert, .sock], 0, 0, []⟩ else
  if env.serverPubkeyErr ≠ 0 then
    conn_cleanup_sock env
      ⟨env.serverPubkeyErr, false, [.privCert, .serverCert, .sock], 0, 0, []⟩ else
  if env.sendReqErr ≠ 0 then
    conn_cleanup_sock env
      ⟨ERROR_SEND_HANDSHAKE_REQ, false, [.privCert, .serverCert, .sock], 0, 0, []⟩ else
  if env.recvRespErr ≠ 0 then
    conn_cleanup_handshake_req env
      ⟨ERROR_RECV_HANDSHAKE_RESP, false,
        [.privCert, .serverCert, .sock, .keyNonce, .challengeNonce], 0, 0, []⟩ else
  let secret :=
    suite.kex env.clientPrivKey env.srvPubkeyFromServer env.clientKeyNonce env.srvKeyNonce
  let heldResp : List ConnRes :=
    [.privCert, .serverCert, .sock, .keyNonce, .challengeNonce,
     .pubkeyCopy, .srvChallengeNonce, .sharedSecret]
  if env.srvIdFromServer ≠ env.pinnedServerId then
    conn_cleanup_handshake_resp env
      ⟨ERROR_SERVER_ID_MISMATCH, false, heldResp, 0, 0, secret⟩ else
  if env.srvPubkeyFromServer.length ≠ env.pinnedServerKey.length
      ∨ env.srvPubkeyFromServer ≠ env.pinnedServerKey then
    conn_cleanup_handshake_resp env
      ⟨ERROR_SERVER_KEY_MISMATCH, false, heldResp, 0, 0, secret⟩ else
  if env.sendAckErr ≠ 0 then
    conn_cleanup_handshake_resp env
      ⟨ERROR_SEND_HANDSHAKE_ACK, false, heldResp, 0, 0, secret⟩ else
  let ack := (protocol_sendreq 0 ⟨1, 1⟩).2
  if env.recvAckErr ≠ 0 then
    conn_cleanup_handshake_resp env
      ⟨ERROR_RECV_HANDSHAKE_ACK, false, heldResp, ack.clientIV, ack.serverIV, secret⟩ else
  let ackr := (protocol_recvresp 0 ack).2
  let heldAll := heldResp ++ [.response]
  if env.ackDecodeErr ≠ 0 then
    conn_cleanup_resp env
      ⟨ERROR_DECODE_HANDSHAKE_ACK, false, heldAll,
        ackr.clientIV, ackr.serverIV, secret⟩ else
  if env.ackHeader.request_id ≠ PROTOCOL_REQ_ID_HANDSHAKE_ACKNOWLEDGE then
    conn_cleanup_resp env
      ⟨ERROR_HANDSHAKE_ACK_REQUEST_ID, false, heldAll,
        ackr.clientIV, ackr.serverIV, secret⟩ else
  if env.ackHeader.status ≠ 0 then
    conn_cleanup_resp env
      ⟨ERROR_HANDSHAKE_ACK_STATUS, false, heldAll,
        ackr.clientIV, ackr.serverIV, secret⟩ else
  conn_cleanup_resp env
    ⟨STATUS_SUCCESS, true, heldAll, ackr.clientIV, ackr.serverIV, secret⟩

/-- A concrete crypto suite instance for evaluating the handshake model
at specific inputs: key-derivation output size 32 bytes, kex returning a
32-byte buffer, satisfying the facade size contract. -/
def velo_suite_model : CryptoSuite where
  keySize := 32
  kex := fun _ _ _ _ => List.replicate 32 0
  kex_size := fun _ _ _ _ => List.length_replicate 32 0

/- ===== theorems ===== -/

/-- C4: on an established session, a successful secure-envelope send
increments client_iv by exactly 1 and leaves server_iv unchanged, a
successful receive increments server_iv by exactly 1 and leaves client_iv
unchanged, a failed send or receive leaves both unchanged, and the
get_and_verify_status helper touches the counters only through those two
envelope operations: its final IV state is fully determined by which of
its one send and one receive succeeded. -/
theorem envelope_iv_discipline (e : Nat) (s : WireState) (env : WireEnv) :
    protocol_sendreq e s = (e, if e = 0 then ⟨s.clientIV + 1, s.serverIV⟩ else s)
    ∧ protocol_recvresp e s = (e, if e = 0 then ⟨s.clientIV, s.serverIV + 1⟩ else s)
    ∧ (get_and_verify_status s env).state =
        (if env.sendErr ≠ 0 then s
         else if env.recvErr ≠ 0 then ⟨s.clientIV + 1, s.serverIV⟩
         else ⟨s.clientIV + 1, s.serverIV + 1⟩) := by
  refine ⟨?_, ?_, ?_⟩
  · unfold protocol_sendreq
    split_ifs with h
    · simp [h]
    · rfl
  · unfold protocol_recvresp
    split_ifs with h
    · simp [h]
    · rfl
  · unfold get_and_verify_status protocol_sendreq protocol_recvresp
    rcases env with ⟨se, re, he, hd, be, bid, ae⟩
    rcases s with ⟨c, v⟩
    by_cases hse : se = 0 <;> by_cases hre : re = 0 <;>
      (simp [hse, hre, STATUS_SUCCESS]; try (split_ifs <;> rfl))

/-- C6 (code bug): on a BLOCK_BY_ID_GET response whose header passes the
request-id and status checks but carries offset 0x1235 instead of the sent
0x1234, get_and_verify_block returns the hardcoded literal 220, not the
ERROR_GET_BLOCK_OFFSET code (11) that status_codes.h allocates for this
failure stage. -/
theorem get_and_verify_block_offset_mismatch_literal :
    (get_and_verify_block ⟨2, 2⟩
      ⟨0, 0, 0, ⟨PROTOCOL_REQ_ID_BLOCK_BY_ID_GET, 0x1235, 0⟩, 0, [], 0⟩).retval = 220
    ∧ ERROR_GET_BLOCK_OFFSET = 11
    ∧ (220 : Nat) ≠ ERROR_GET_BLOCK_OFFSET := by
  refine ⟨?_, rfl, by decide⟩
  decide

/-- Helper for C8: the matching loop succeeds exactly when the target is
among the entries, and otherwise yields the not-found code 241. -/
theorem find_txn_loop_eq_success_iff (txn : List Nat) (l : List (List Nat)) :
    (find_txn_loop txn l = STATUS_SUCCESS ↔ txn ∈ l)
    ∧ (find_txn_loop txn l = STATUS_SUCCESS ∨ find_txn_loop txn l = 241) := by
  induction l with
  | nil => simp [find_txn_loop, STATUS_SUCCESS]
  | cons b rest ih =>
      by_cases h : b = txn
      · simp [find_txn_loop, h, STATUS_SUCCESS]
      · have hne : txn ≠ b := fun hh => h hh.symm
        have hstep : find_txn_loop txn (b :: rest) = find_txn_loop txn rest := by
          simp [find_txn_loop, h]
        rw [hstep]
        refine ⟨?_, ih.2⟩
        rw [ih.1]
        simp [List.mem_cons, hne]

/-- C8: find_transaction_in_block is purely local (its inputs are the two
certificates only, no socket and no session state) and returns
STATUS_SUCCESS exactly when some wrapped-transaction-tuple field of the
block certificate is byte-for-byte equal to the target transaction
certificate; in every other case it returns the non-zero code 241. -/
theorem find_transaction_in_block_correct (blockFields : List CertField) (txn : List Nat) :
    (find_transaction_in_block blockFields txn = STATUS_SUCCESS ↔
      ∃ f ∈ blockFields,
        f.ftype = VCCERT_FIELD_TYPE_WRAPPED_TRANSACTION_TUPLE ∧ f.bytes = txn)
    ∧ (find_transaction_in_block blockFields txn = STATUS_SUCCESS
        ∨ find_transaction_in_block blockFields txn = 241) := by
  unfold find_transaction_in_block
  constructor
  · rw [(find_txn_loop_eq_success_iff txn _).1]
    simp only [List.mem_map, List.mem_filter, beq_iff_eq]
    constructor
    · rintro ⟨f, ⟨hf, hty⟩, hb⟩
      exact ⟨f, hf, hty, hb⟩
    · rintro ⟨f, hf, hty, hb⟩
      exact ⟨f, ⟨hf, hty⟩, hb⟩
  · exact (find_txn_loop_eq_success_iff txn _).2

/-- C7: entity_private_certificate_create_from_file returns a distinct
code per failure stage — stat, buffer allocation, open, read (including a
short read), certificate decode — and STATUS_SUCCESS exactly when all five
stages succeed. -/
theorem entity_private_cert_stage_codes (env : FileEnv) :
    (env.statErr ≠ 0 →
      entity_private_certificate_create_from_file env = ERROR_PRIVATE_CERT_STAT)
    ∧ (env.statErr = 0 → env.bufferErr ≠ 0 →
      entity_private_certificate_create_from_file env = ERROR_PRIVATE_CERT_BUFFER_CREATE)
    ∧ (env.statErr = 0 → env.bufferErr = 0 → env.openErr ≠ 0 →
      entity_private_certificate_create_from_file env = ERROR_PRIVATE_CERT_FILE_OPEN)
    ∧ (env.statErr = 0 → env.bufferErr = 0 → env.openErr = 0 →
      env.readErr ≠ 0 ∨ env.readBytes < env.fileSize →
      entity_private_certificate_create_from_file env = ERROR_PRIVATE_CERT_FILE_READ)
    ∧ (env.statErr = 0 → env.bufferErr = 0 → env.openErr = 0 → env.readErr = 0 →
      env.readBytes = env.fileSize → env.decodeErr ≠ 0 →
      entity_private_certificate_create_from_file env = ERROR_PRIVATE_CERT_FILE_PARSE)
    ∧ (entity_private_certificate_create_from_file env = STATUS_SUCCESS ↔
      env.statErr = 0 ∧ env.bufferErr = 0 ∧ env.openErr = 0 ∧ env.readErr = 0
        ∧ env.readBytes = env.fileSize ∧ env.decodeErr = 0) := by
  unfold entity_private_certificate_create_from_file
  refine ⟨?_, ?_, ?_, ?_, ?_, ?_⟩
  · intro h; simp [h]
  · intro h1 h2; simp [h1, h2]
  · intro h1 h2 h3; simp [h1, h2, h3]
  · intro h1 h2 h3 h4
    have hr : env.readErr ≠ 0 ∨ env.readBytes ≠ env.fileSize := by
      rcases h4 with h | h
      · exact Or.inl h
      · exact Or.inr (Nat.ne_of_lt h)
    simp [h1, h2, h3, hr]
  · intro h1 h2 h3 h4 h5 h6; simp [h1, h2, h3, h4, h5, h6]
  · constructor
    · intro h
      by_cases h1 : env.statErr = 0 <;> by_cases h2 : env.bufferErr = 0 <;>
        by_cases h3 : env.openErr = 0 <;> by_cases h4 : env.readErr = 0 <;>
        by_cases h5 : env.readBytes = env.fileSize <;>
        by_cases h6 : env.decodeErr = 0 <;>
        simp_all [STATUS_SUCCESS, ERROR_PRIVATE_CERT_STAT,
          ERROR_PRIVATE_CERT_BUFFER_CREATE, ERROR_PRIVATE_CERT_FILE_OPEN,
          ERROR_PRIVATE_CERT_FILE_READ, ERROR_PRIVATE_CERT_FILE_PARSE]
    · rintro ⟨h1, h2, h3, h4, h5, h6⟩
      simp [h1, h2, h3, h4, h5, h6]

/-- Witness for C7: a run whose stat fails yields ERROR_PRIVATE_CERT_STAT,
and a fully successful run yields STATUS_SUCCESS, by the theorem at two
concrete environments. -/
theorem entity_private_cert_stage_codes_witness :
    entity_private_certificate_create_from_file ⟨7, 64, 0, 0, 0, 64, 0⟩
        = ERROR_PRIVATE_CERT_STAT
    ∧ entity_private_certificate_create_from_file ⟨0, 64, 0, 0, 0, 64, 0⟩
        = STATUS_SUCCESS := by
  constructor
  · exact (entity_private_cert_stage_codes ⟨7, 64, 0, 0, 0, 64, 0⟩).1 (by decide)
  · exact (entity_private_cert_stage_codes ⟨0, 64, 0, 0, 0, 64, 0⟩).2.2.2.2.2.2
      ⟨rfl, rfl, rfl, rfl, rfl, rfl⟩

/-- C9: whenever the ping sentinel successfully receives and decodes a
server-initiated EXTENDED_API_CLIENTREQ (and the environment grants the
response-body allocation and the transmission), it sends exactly one
EXTENDED_API_SENDRESP whose offset is the offset carried in the decoded
client request, with status 0 when the request's verb id is the ping verb
UUID and a non-zero fail code otherwise. -/
theorem ping_sentinel_sendresp_echoes_offset (env : SentinelEnv)
    (h1 : env.recvErr = 0) (h2 : env.headerErr = 0)
    (h3 : env.header.request_id = PROTOCOL_REQ_ID_EXTENDED_API_CLIENTREQ)
    (h4 : env.reqDecodeErr = 0) (h5 : env.allocErr = 0) (h6 : env.sendErr = 0) :
    (read_decode_and_dispatch_request env).sent
      = [(env.reqOffset,
          if env.reqVerbId = HELPERS_PING_PROTOCOL_VERB_PING then STATUS_SUCCESS
          else ERROR_READ_EXTENDED_API_INVALID_VERB)]
    ∧ ERROR_READ_EXTENDED_API_INVALID_VERB ≠ STATUS_SUCCESS := by
  refine ⟨?_, by decide⟩
  unfold read_decode_and_dispatch_request
  simp only [h1, h2, h3, h4, h5, h6, STATUS_SUCCESS, ite_not, ne_eq,
    not_true_eq_false, if_false, ite_self]
  split_ifs <;> simp_all

/-- Witness for C9: a concrete client request carrying the ping verb and
offset 7 is answered by exactly one SENDRESP with offset 7 and status 0,
by the theorem at that concrete environment. -/
theorem ping_sentinel_sendresp_echoes_offset_witness :
    (read_decode_and_dispatch_request
      ⟨0, 0, ⟨PROTOCOL_REQ_ID_EXTENDED_API_CLIENTREQ, 0, 0⟩, 0,
        HELPERS_PING_PROTOCOL_VERB_PING, 7, 0, 0, 0, 0,
        ⟨PROTOCOL_REQ_ID_EXTENDED_API_SENDRESP, 0, 0⟩⟩).sent
      = [(7, STATUS_SUCCESS)] := by
  have h := ping_sentinel_sendresp_echoes_offset
    ⟨0, 0, ⟨PROTOCOL_REQ_ID_EXTENDED_API_CLIENTREQ, 0, 0⟩, 0,
      HELPERS_PING_PROTOCOL_VERB_PING, 7, 0, 0, 0, 0,
      ⟨PROTOCOL_REQ_ID_EXTENDED_API_SENDRESP, 0, 0⟩⟩
    rfl rfl rfl rfl rfl rfl
  simpa using h.1

/-- C10: in send_and_verify_ping_request the request-id, status and offset
checks run in sequence with no early exit, so the code of the last failing
check (in the order request-id, status, offset) is returned — in
particular an offset mismatch yields ERROR_PING_RESPONSE_OFFSET even when
the request id also mismatches — and the body decode is reached exactly
when all three checks pass. -/
theorem ping_request_header_checks_no_early_exit
    (s : WireState) (offset : Nat) (env : WireEnv)
    (ha : env.allocErr = 0) (hs : env.sendErr = 0)
    (hr : env.recvErr = 0) (hh : env.headerErr = 0) :
    ((send_and_verify_ping_request s offset env).bodyDecoded = true ↔
      (env.header.request_id = PROTOCOL_REQ_ID_EXTENDED_API_SENDRECV
        ∧ env.header.status = 0 ∧ offset = env.header.offset))
    ∧ (offset ≠ env.header.offset →
      (send_and_verify_ping_request s offset env).retval = ERROR_PING_RESPONSE_OFFSET)
    ∧ (offset = env.header.offset → env.header.status ≠ 0 →
      (send_and_verify_ping_request s offset env).retval = ERROR_PING_RESPONSE_STATUS_CODE)
    ∧ (offset = env.header.offset → env.header.status = 0 →
      env.header.request_id ≠ PROTOCOL_REQ_ID_EXTENDED_API_SENDRECV →
      (send_and_verify_ping_request s offset env).retval = ERROR_PING_RESPONSE_ID) := by
  obtain ⟨se, re, he, hd, be, bid, ae⟩ := env
  obtain ⟨rid, off, hst⟩ := hd
  dsimp only at ha hs hr hh ⊢
  subst ha hs hr hh
  unfold send_and_verify_ping_request protocol_sendreq protocol_recvresp
  refine ⟨?_, ?_, ?_, ?_⟩
  · by_cases h1 : rid = PROTOCOL_REQ_ID_EXTENDED_API_SENDRECV <;>
      by_cases h2 : hst = 0 <;>
      by_cases h3 : offset = off <;>
      by_cases h4 : be = 0 <;>
      simp [h1, h2, h3, h4, STATUS_SUCCESS, ERROR_PING_RESPONSE_ID,
        ERROR_PING_RESPONSE_STATUS_CODE, ERROR_PING_RESPONSE_OFFSET]
  · intro h3
    simp [h3, STATUS_SUCCESS, ERROR_PING_RESPONSE_OFFSET]
  · intro h3 h2
    by_cases h1 : rid = PROTOCOL_REQ_ID_EXTENDED_API_SENDRECV <;>
      simp [h1, h2, h3, STATUS_SUCCESS, ERROR_PING_RESPONSE_STATUS_CODE,
        ERROR_PING_RESPONSE_ID]
  · intro h3 h2 h1
    simp [h1, h2, h3, STATUS_SUCCESS, ERROR_PING_RESPONSE_ID]

/-- Witness for C10: a response whose request id is wrong and whose offset
is also wrong yields the offset code, by the theorem at a concrete
environment. -/
theorem ping_request_header_checks_no_early_exit_witness :
    (send_and_verify_ping_request ⟨2, 2⟩ 5
      ⟨0, 0, 0, ⟨99, 6, 0⟩, 0, [], 0⟩).retval = ERROR_PING_RESPONSE_OFFSET := by
  exact (ping_request_header_checks_no_early_exit ⟨2, 2⟩ 5
    ⟨0, 0, 0, ⟨99, 6, 0⟩, 0, [], 0⟩ rfl rfl rfl rfl).2.1 (by decide)

/-- Counterexample for C1: the inline client of
test_get_latest_block_empty performs the standard recipe (it sends
LATEST_BLOCK_ID_GET with offset 0x1337) but never checks the decoded
offset: on a concrete response whose header carries offset 0x1235 with the
correct request id and status 0, it decodes the body and returns success,
contradicting the claim that every such call succeeds and decodes the body
only when the decoded offset equals the offset sent. -/
theorem test_get_latest_block_empty_ignores_offset :
    (test_get_latest_block_empty_main ⟨2, 2⟩
      ⟨0, 0, 0, ⟨PROTOCOL_REQ_ID_LATEST_BLOCK_ID_GET, 0x1235, 0⟩, 0,
        vccert_certificate_type_uuid_root_block, 0⟩).retval = STATUS_SUCCESS
    ∧ (test_get_latest_block_empty_main ⟨2, 2⟩
      ⟨0, 0, 0, ⟨PROTOCOL_REQ_ID_LATEST_BLOCK_ID_GET, 0x1235, 0⟩, 0,
        vccert_certificate_type_uuid_root_block, 0⟩).bodyDecoded = true
    ∧ (0x1235 : Nat) ≠ 0x1337 := by
  refine ⟨?_, ?_, by decide⟩ <;> decide

/-- C1 (amended): the standard helpers obey the full triad — here
get_and_verify_last_block_id returns success exactly when the decoded
request id, status and offset checks all pass (and the body decode also
succeeds), decodes the body exactly when the triad passes, and returns the
kind-specific code of the first failing check — but the inline client of
test_get_latest_block_empty checks only the request id and the status: it
decodes the body regardless of the decoded offset. -/
theorem last_block_id_triad_and_inline_client (s : WireState) (env : WireEnv) :
    ((get_and_verify_last_block_id s env).retval = STATUS_SUCCESS ↔
      (env.sendErr = 0 ∧ env.recvErr = 0 ∧ env.headerErr = 0
        ∧ env.header.request_id = PROTOCOL_REQ_ID_LATEST_BLOCK_ID_GET
        ∧ env.header.status = 0 ∧ env.header.offset = 0x1337 ∧ env.bodyErr = 0))
    ∧ ((get_and_verify_last_block_id s env).bodyDecoded = true ↔
      (env.sendErr = 0 ∧ env.recvErr = 0 ∧ env.headerErr = 0
        ∧ env.header.request_id = PROTOCOL_REQ_ID_LATEST_BLOCK_ID_GET
        ∧ env.header.status = 0 ∧ env.header.offset = 0x1337))
    ∧ (env.sendErr = 0 → env.recvErr = 0 → env.headerErr = 0 →
      env.header.request_id ≠ PROTOCOL_REQ_ID_LATEST_BLOCK_ID_GET →
      (get_and_verify_last_block_id s env).retval = ERROR_LATEST_BLOCK_ID_REQUEST_ID)
    ∧ (env.sendErr = 0 → env.recvErr = 0 → env.headerErr = 0 →
      env.header.request_id = PROTOCOL_REQ_ID_LATEST_BLOCK_ID_GET →
      env.header.status ≠ 0 →
      (get_and_verify_last_block_id s env).retval = ERROR_LATEST_BLOCK_ID_STATUS)
    ∧ (env.sendErr = 0 → env.recvErr = 0 → env.headerErr = 0 →
      env.header.request_id = PROTOCOL_REQ_ID_LATEST_BLOCK_ID_GET →
      env.header.status = 0 → env.header.offset ≠ 0x1337 →
      (get_and_verify_last_block_id s env).retval = ERROR_LATEST_BLOCK_ID_OFFSET)
    ∧ ((test_get_latest_block_empty_main s env).bodyDecoded = true ↔
      (env.sendErr = 0 ∧ env.recvErr = 0 ∧ env.headerErr = 0
        ∧ env.header.request_id = PROTOCOL_REQ_ID_LATEST_BLOCK_ID_GET
        ∧ env.header.status = 0)) := by
  obtain ⟨se, re, he, hd, be, bid, ae⟩ := env
  obtain ⟨rid, off, hst⟩ := hd
  dsimp only
  unfold get_and_verify_last_block_id test_get_latest_block_empty_main
    protocol_sendreq protocol_recvresp
  by_cases h1 : se = 0 <;> by_cases h2 : re = 0 <;> by_cases h3 : he = 0 <;>
    by_cases h4 : rid = PROTOCOL_REQ_ID_LATEST_BLOCK_ID_GET <;>
    by_cases h5 : hst = 0 <;> by_cases h6 : off = 0x1337 <;>
    by_cases h7 : be = 0 <;>
    by_cases h8 : bid = vccert_certificate_type_uuid_root_block <;>
    simp [h1, h2, h3, h4, h5, h6, h7, h8, STATUS_SUCCESS,
      ERROR_SEND_LATEST_BLOCK_ID_REQ, ERROR_RECV_LATEST_BLOCK_ID_RESP,
      ERROR_DECODE_LATEST_BLOCK_ID, ERROR_LATEST_BLOCK_ID_REQUEST_ID,
      ERROR_LATEST_BLOCK_ID_STATUS, ERROR_LATEST_BLOCK_ID_OFFSET,
      ERROR_DECODE_LATEST_BLOCK_ID_DATA]

/-- Witness for the amended C1: on a response with the right request id
and status but offset 0x1235, the helper returns the offset error, by the
theorem at a concrete environment. -/
theorem last_block_id_triad_and_inline_client_witness :
    (get_and_verify_last_block_id ⟨2, 2⟩
      ⟨0, 0, 0, ⟨PROTOCOL_REQ_ID_LATEST_BLOCK_ID_GET, 0x1235, 0⟩, 0, [], 0⟩).retval
      = ERROR_LATEST_BLOCK_ID_OFFSET := by
  exact (last_block_id_triad_and_inline_client ⟨2, 2⟩
    ⟨0, 0, 0, ⟨PROTOCOL_REQ_ID_LATEST_BLOCK_ID_GET, 0x1235, 0⟩, 0, [], 0⟩).2.2.2.2.1
    rfl rfl rfl rfl rfl (by decide)

/-- Helper for C5: the cleanup chain entered at `done` on the failure
path returns the state unchanged. -/
theorem conn_done_fail (env : ConnEnv) (code : Nat) :
    conn_done env ⟨code, false, [], 0, 0, []⟩ = ⟨code, false, [], 0, 0, []⟩ := rfl

/-- Helper for C5: the cleanup chain entered at `cleanup_cert` on the
failure path releases the private certificate. -/
theorem conn_cleanup_cert_fail (env : ConnEnv) (code : Nat) :
    conn_cleanup_cert env ⟨code, false, [ConnRes.privCert], 0, 0, []⟩
      = ⟨if env.privCertReleaseErr ≠ 0 then env.privCertReleaseErr else code,
          false, [], 0, 0, []⟩ := rfl

/-- Helper for C5: the cleanup chain entered at `cleanup_server_cert` on
the failure path releases both certificates. -/
theorem conn_cleanup_server_cert_fail (env : ConnEnv) (code : Nat) :
    conn_cleanup_server_cert env
      ⟨code, false, [ConnRes.privCert, ConnRes.serverCert], 0, 0, []⟩
      = ⟨if env.privCertReleaseErr ≠ 0 then env.privCertReleaseErr
          else if env.serverCertReleaseErr ≠ 0 then env.serverCertReleaseErr else code,
          false, [], 0, 0, []⟩ := rfl

/-- Helper for C5: the cleanup chain entered at `cleanup_sock` on the
failure path disposes the socket and releases both certificates. -/
theorem conn_cleanup_sock_fail (env : ConnEnv) (code : Nat) :
    conn_cleanup_sock env
      ⟨code, false, [ConnRes.privCert, ConnRes.serverCert, ConnRes.sock], 0, 0, []⟩
      = ⟨if env.privCertReleaseErr ≠ 0 then env.privCertReleaseErr
          else if env.serverCertReleaseErr ≠ 0 then env.serverCertReleaseErr else code,
          false, [], 0, 0, []⟩ := rfl

/-- Helper for C5: the cleanup chain entered at `cleanup_handshake_req` on
the failure path disposes both nonces, the socket and the certificates. -/
theorem conn_cleanup_handshake_req_fail (env : ConnEnv) (code : Nat) :
    conn_cleanup_handshake_req env
      ⟨code, false,
        [ConnRes.privCert, ConnRes.serverCert, ConnRes.sock,
         ConnRes.keyNonce, ConnRes.challengeNonce], 0, 0, []⟩
      = ⟨if env.privCertReleaseErr ≠ 0 then env.privCertReleaseErr
          else if env.serverCertReleaseErr ≠ 0 then env.serverCertReleaseErr else code,
          false, [], 0, 0, []⟩ := rfl

/-- Helper for C5: the cleanup chain entered at `cleanup_handshake_resp`
on the failure path disposes every handshake buffer, the shared secret,
the socket and the certificates. -/
theorem conn_cleanup_handshake_resp_fail (env : ConnEnv) (code civ siv : Nat)
    (sec : List Nat) :
    conn_cleanup_handshake_resp env
      ⟨code, false,
        [ConnRes.privCert, ConnRes.serverCert, ConnRes.sock,
         ConnRes.keyNonce, ConnRes.challengeNonce,
         ConnRes.pubkeyCopy, ConnRes.srvChallengeNonce, ConnRes.sharedSecret],
        civ, siv, sec⟩
      = ⟨if env.privCertReleaseErr ≠ 0 then env.privCertReleaseErr
          else if env.serverCertReleaseErr ≠ 0 then env.serverCertReleaseErr else code,
          false, [], civ, siv, sec⟩ := rfl

/-- Helper for C5: the cleanup chain entered at `cleanup_resp` on the
failure path disposes everything. -/
theorem conn_cleanup_resp_fail (env : ConnEnv) (code civ siv : Nat) (sec : List Nat) :
    conn_cleanup_resp env
      ⟨code, false,
        [ConnRes.privCert, ConnRes.serverCert, ConnRes.sock,
         ConnRes.keyNonce, ConnRes.challengeNonce,
         ConnRes.pubkeyCopy, ConnRes.srvChallengeNonce, ConnRes.sharedSecret,
         ConnRes.response],
        civ, siv, sec⟩
      = ⟨if env.privCertReleaseErr ≠ 0 then env.privCertReleaseErr
          else if env.serverCertReleaseErr ≠ 0 then env.serverCertReleaseErr else code,
          false, [], civ, siv, sec⟩ := rfl

/-- Helper for C5: the cleanup chain entered at `cleanup_resp` on the
success path keeps exactly the private certificate, the socket and the
shared secret, handing the rest to the `done` safety net. -/
theorem conn_cleanup_resp_success (env : ConnEnv) (civ siv : Nat) (sec : List Nat) :
    conn_cleanup_resp env
      ⟨STATUS_SUCCESS, true,
        [ConnRes.privCert, ConnRes.serverCert, ConnRes.sock,
         ConnRes.keyNonce, ConnRes.challengeNonce,
         ConnRes.pubkeyCopy, ConnRes.srvChallengeNonce, ConnRes.sharedSecret,
         ConnRes.response],
        civ, siv, sec⟩
      = conn_done env
          ⟨if env.serverCertReleaseErr ≠ 0 then env.serverCertReleaseErr else STATUS_SUCCESS,
            true, [ConnRes.privCert, ConnRes.sock, ConnRes.sharedSecret],
            civ, siv, sec⟩ := rfl

/-- Helper for C5: the `done` safety net after a successful handshake
whose cleanup failed disposes the three returned resources. -/
theorem conn_done_success_fail (env : ConnEnv) (code civ siv : Nat) (sec : List Nat)
    (h : code ≠ 0) :
    conn_done env
      ⟨code, true, [ConnRes.privCert, ConnRes.sock, ConnRes.sharedSecret], civ, siv, sec⟩
      = ⟨if env.privCertReleaseErr ≠ 0 then env.privCertReleaseErr else code,
          true, [], civ, siv, sec⟩ := by
  unfold conn_done
  rw [if_pos ⟨rfl, h⟩]
  rfl

/-- Helper for C5: the `done` safety net after a fully clean success
leaves the returned resources with the caller. -/
theorem conn_done_success_ok (env : ConnEnv) (civ siv : Nat) (sec : List Nat) :
    conn_done env
      ⟨STATUS_SUCCESS, true, [ConnRes.privCert, ConnRes.sock, ConnRes.sharedSecret],
        civ, siv, sec⟩
      = ⟨STATUS_SUCCESS, true, [ConnRes.privCert, ConnRes.sock, ConnRes.sharedSecret],
          civ, siv, sec⟩ := rfl

/-- Helper for C5 and C2: a cleanup-chain status built from the two
release outcomes and a non-zero entry code is non-zero. -/
theorem conn_retval_ne (a b c : Nat) (hc : c ≠ 0) :
    (if a ≠ 0 then a else if b ≠ 0 then b else c) ≠ 0 := by
  split_ifs with hx hy
  · exact hx
  · exact hy
  · exact hc

/-- Helper for C5 and C2: one-release variant of conn_retval_ne. -/
theorem conn_retval_ne1 (a c : Nat) (hc : c ≠ 0) :
    (if a ≠ 0 then a else c) ≠ 0 := by
  split_ifs with hx
  · exact hx
  · exact hc

set_option maxHeartbeats 1000000 in
/-- C5: on every failing exit path of agentd_connection_init every
intermediate resource acquired before the failure (certificates, socket,
nonces, received copies, shared secret, response buffer) is released
before the error code is returned, so on error the caller owns nothing;
on the success path the caller owns exactly the private certificate, the
socket and the shared secret. -/
theorem agentd_connection_init_resource_discipline (suite : CryptoSuite) (env : ConnEnv) :
    ((agentd_connection_init suite env).retval ≠ STATUS_SUCCESS →
      (agentd_connection_init suite env).held = [])
    ∧ ((agentd_connection_init suite env).retval = STATUS_SUCCESS →
      (agentd_connection_init suite env).held
        = [ConnRes.privCert, ConnRes.sock, ConnRes.sharedSecret]) := by
  obtain ⟨r, hE⟩ : ∃ r, agentd_connection_init suite env = r := ⟨_, rfl⟩
  rw [hE]
  unfold agentd_connection_init at hE
  simp only [protocol_sendreq, protocol_recvresp, reduceIte,
    List.cons_append, List.nil_append] at hE
  by_cases h1 : env.privCertErr ≠ 0
  · rw [if_pos h1, conn_done_fail] at hE
    subst hE
    exact ⟨fun _ => rfl, fun hz => absurd hz h1⟩
  rw [if_neg h1] at hE
  by_cases h2 : env.pubCertErr ≠ 0
  · rw [if_pos h2, conn_cleanup_cert_fail] at hE
    subst hE
    exact ⟨fun _ => rfl, fun hz => absurd hz (conn_retval_ne1 _ _ h2)⟩
  rw [if_neg h2] at hE
  by_cases h3 : env.sockErr ≠ 0
  · rw [if_pos h3, conn_cleanup_server_cert_fail] at hE
    subst hE
    exact ⟨fun _ => rfl, fun hz => absurd hz (conn_retval_ne _ _ _ (by decide))⟩
  rw [if_neg h3] at hE
  by_cases h4 : env.clientIdErr ≠ 0
  · rw [if_pos h4, conn_cleanup_sock_fail] at hE
    subst hE
    exact ⟨fun _ => rfl, fun hz => absurd hz (conn_retval_ne _ _ _ h4)⟩
  rw [if_neg h4] at hE
  by_cases h5 : env.clientPubkeyErr ≠ 0
  · rw [if_pos h5, conn_cleanup_sock_fail] at hE
    subst hE
    exact ⟨fun _ => rfl, fun hz => absurd hz (conn_retval_ne _ _ _ h5)⟩
  rw [if_neg h5] at hE
  by_cases h6 : env.clientPrivkeyErr ≠ 0
  · rw [if_pos h6, conn_cleanup_sock_fail] at hE
    subst hE
    exact ⟨fun _ => rfl, fun hz => absurd hz (conn_retval_ne _ _ _ h6)⟩
  rw [if_neg h6] at hE
  by_cases h7 : env.serverIdErr ≠ 0
  · rw [if_pos h7, conn_cleanup_sock_fail] at hE
    subst hE
    exact ⟨fun _ => rfl, fun hz => absurd hz (conn_retval_ne _ _ _ h7)⟩
  rw [if_neg h7] at hE
  by_cases h8 : env.serverPubkeyErr ≠ 0
  · rw [if_pos h8, conn_cleanup_sock_fail] at hE
    subst hE
    exact ⟨fun _ => rfl, fun hz => absurd hz (conn_retval_ne _ _ _ h8)⟩
  rw [if_neg h8] at hE
  by_cases h9 : env.sendReqErr ≠ 0
  · rw [if_pos h9, conn_cleanup_sock_fail] at hE
    subst hE
    exact ⟨fun _ => rfl, fun hz => absurd hz (conn_retval_ne _ _ _ (by decide))⟩
  rw [if_neg h9] at hE
  by_cases h10 : env.recvRespErr ≠ 0
  · rw [if_pos h10, conn_cleanup_handshake_req_fail] at hE
    subst hE
    exact ⟨fun _ => rfl, fun hz => absurd hz (conn_retval_ne _ _ _ (by decide))⟩
  rw [if_neg h10] at hE
  by_cases h11 : env.srvIdFromServer ≠ env.pinnedServerId
  · rw [if_pos h11, conn_cleanup_handshake_resp_fail] at hE
    subst hE
    exact ⟨fun _ => rfl, fun hz => absurd hz (conn_retval_ne _ _ _ (by decide))⟩
  rw [if_neg h11] at hE
  by_cases h12 : env.srvPubkeyFromServer.length ≠ env.pinnedServerKey.length
      ∨ env.srvPubkeyFromServer ≠ env.pinnedServerKey
  · rw [if_pos h12, conn_cleanup_handshake_resp_fail] at hE
    subst hE
    exact ⟨fun _ => rfl, fun hz => absurd hz (conn_retval_ne _ _ _ (by decide))⟩
  rw [if_neg h12] at hE
  by_cases h13 : env.sendAckErr ≠ 0
  · rw [if_pos h13, conn_cleanup_handshake_resp_fail] at hE
    subst hE
    exact ⟨fun _ => rfl, fun hz => absurd hz (conn_retval_ne _ _ _ (by decide))⟩
  rw [if_neg h13] at hE
  by_cases h14 : env.recvAckErr ≠ 0
  · rw [if_pos h14, conn_cleanup_handshake_resp_fail] at hE
    subst hE
    exact ⟨fun _ => rfl, fun hz => absurd hz (conn_retval_ne _ _ _ (by decide))⟩
  rw [if_neg h14] at hE
  by_cases h15 : env.ackDecodeErr ≠ 0
  · rw [if_pos h15, conn_cleanup_resp_fail] at hE
    subst hE
    exact ⟨fun _ => rfl, fun hz => absurd hz (conn_retval_ne _ _ _ (by decide))⟩
  rw [if_neg h15] at hE
  by_cases h16 : env.ackHeader.request_id ≠ PROTOCOL_REQ_ID_HANDSHAKE_ACKNOWLEDGE
  · rw [if_pos h16, conn_cleanup_resp_fail] at hE
    subst hE
    exact ⟨fun _ => rfl, fun hz => absurd hz (conn_retval_ne _ _ _ (by decide))⟩
  rw [if_neg h16] at hE
  by_cases h17 : env.ackHeader.status ≠ 0
  · rw [if_pos h17, conn_cleanup_resp_fail] at hE
    subst hE
    exact ⟨fun _ => rfl, fun hz => absurd hz (conn_retval_ne _ _ _ (by decide))⟩
  rw [if_neg h17, conn_cleanup_resp_success] at hE
  by_cases hsrv : env.serverCertReleaseErr ≠ 0
  · rw [if_pos hsrv, conn_done_success_fail _ _ _ _ _ hsrv] at hE
    subst hE
    exact ⟨fun _ => rfl, fun hz => absurd hz (conn_retval_ne1 _ _ hsrv)⟩
  rw [if_neg hsrv, conn_done_success_ok] at hE
  subst hE
  exact ⟨fun hz => absurd rfl hz, fun _ => rfl⟩

/-- Witness for C5: a fully clean run leaves the caller owning exactly the
private certificate, the socket and the shared secret, by the theorem at
a concrete environment. -/
theorem agentd_connection_init_resource_discipline_witness :
    (agentd_connection_init velo_suite_model
      ⟨0, 0, 0, 0, 0, 0, 0, 0, [1], [2], [], [], 0, 0, [1], [2], [], 0, 0, 0,
        ⟨PROTOCOL_REQ_ID_HANDSHAKE_ACKNOWLEDGE, 0, 0⟩, 0, 0⟩).held
      = [ConnRes.privCert, ConnRes.sock, ConnRes.sharedSecret] := by
  exact (agentd_connection_init_resource_discipline velo_suite_model
    ⟨0, 0, 0, 0, 0, 0, 0, 0, [1], [2], [], [], 0, 0, [1], [2], [], 0, 0, 0,
      ⟨PROTOCOL_REQ_ID_HANDSHAKE_ACKNOWLEDGE, 0, 0⟩, 0, 0⟩).2 (by decide)

set_option maxHeartbeats 1000000 in
/-- C2: after the handshake response is received and cryptographically
verified, agentd_connection_init compares the received 16-byte server
artifact id byte-wise to the pinned server id and fails with
ERROR_SERVER_ID_MISMATCH on any difference; with matching ids it compares
the received server public encryption key (size, then bytes) to the
pinned server key and fails with ERROR_SERVER_KEY_MISMATCH on any
difference; in either case no session is established and the caller owns
nothing. -/
theorem agentd_connection_init_pinned_identity (suite : CryptoSuite) (env : ConnEnv)
    (hpc : env.privCertErr = 0) (hpub : env.pubCertErr = 0) (hsock : env.sockErr = 0)
    (hcid : env.clientIdErr = 0) (hcpub : env.clientPubkeyErr = 0)
    (hcpriv : env.clientPrivkeyErr = 0) (hsid : env.serverIdErr = 0)
    (hspub : env.serverPubkeyErr = 0) (hsreq : env.sendReqErr = 0)
    (hrresp : env.recvRespErr = 0) (hsrel : env.serverCertReleaseErr = 0)
    (hprel : env.privCertReleaseErr = 0) :
    ((env.srvIdFromServer ≠ env.pinnedServerId →
      (agentd_connection_init suite env).retval = ERROR_SERVER_ID_MISMATCH
      ∧ (agentd_connection_init suite env).held = []))
    ∧ (env.srvIdFromServer = env.pinnedServerId →
      env.srvPubkeyFromServer ≠ env.pinnedServerKey →
      (agentd_connection_init suite env).retval = ERROR_SERVER_KEY_MISMATCH
      ∧ (agentd_connection_init suite env).held = []) := by
  obtain ⟨r, hE⟩ : ∃ r, agentd_connection_init suite env = r := ⟨_, rfl⟩
  rw [hE]
  unfold agentd_connection_init at hE
  simp only [protocol_sendreq, protocol_recvresp, reduceIte,
    List.cons_append, List.nil_append] at hE
  rw [if_neg (by simp [hpc]), if_neg (by simp [hpub]), if_neg (by simp [hsock]),
    if_neg (by simp [hcid]), if_neg (by simp [hcpub]), if_neg (by simp [hcpriv]),
    if_neg (by simp [hsid]), if_neg (by simp [hspub]), if_neg (by simp [hsreq]),
    if_neg (by simp [hrresp])] at hE
  constructor
  · intro hid
    rw [if_pos hid, conn_cleanup_handshake_resp_fail] at hE
    subst hE
    refine ⟨?_, rfl⟩
    dsimp only
    rw [if_neg (by simp [hprel]), if_neg (by simp [hsrel])]
  · intro hid hkey
    rw [if_neg (by simp [hid])] at hE
    rw [if_pos (Or.inr hkey), conn_cleanup_handshake_resp_fail] at hE
    subst hE
    refine ⟨?_, rfl⟩
    dsimp only
    rw [if_neg (by simp [hprel]), if_neg (by simp [hsrel])]

/-- Witness for C2: a received server id differing from the pinned id
makes the handshake fail with ERROR_SERVER_ID_MISMATCH and release
everything, by the theorem at a concrete environment. -/
theorem agentd_connection_init_pinned_identity_witness :
    (agentd_connection_init velo_suite_model
      ⟨0, 0, 0, 0, 0, 0, 0, 0, [1], [2], [], [], 0, 0, [9], [2], [], 0, 0, 0,
        ⟨PROTOCOL_REQ_ID_HANDSHAKE_ACKNOWLEDGE, 0, 0⟩, 0, 0⟩).retval
      = ERROR_SERVER_ID_MISMATCH := by
  exact ((agentd_connection_init_pinned_identity velo_suite_model
    ⟨0, 0, 0, 0, 0, 0, 0, 0, [1], [2], [], [], 0, 0, [9], [2], [], 0, 0, 0,
      ⟨PROTOCOL_REQ_ID_HANDSHAKE_ACKNOWLEDGE, 0, 0⟩, 0, 0⟩
    rfl rfl rfl rfl rfl rfl rfl rfl rfl rfl rfl rfl).1 (by decide)).1

set_option maxHeartbeats 1000000 in
/-- C3: every run of agentd_connection_init that returns STATUS_SUCCESS
(the full four-step handshake, with the acknowledgement response carrying
request id HANDSHAKE_ACKNOWLEDGE and status 0) returns client_iv = 2 and
server_iv = 2 — both counters start at 1 at the acknowledgement step and
each advances once through the secure envelope — and a shared secret
whose length is the suite's key-derivation output size. -/
theorem agentd_connection_init_success_post (suite : CryptoSuite) (env : ConnEnv)
    (hok : (agentd_connection_init suite env).retval = STATUS_SUCCESS) :
    (agentd_connection_init suite env).clientIV = 2
    ∧ (agentd_connection_init suite env).serverIV = 2
    ∧ (agentd_connection_init suite env).sharedSecret.length = suite.keySize := by
  obtain ⟨r, hE⟩ : ∃ r, agentd_connection_init suite env = r := ⟨_, rfl⟩
  rw [hE] at hok ⊢
  unfold agentd_connection_init at hE
  simp only [protocol_sendreq, protocol_recvresp, reduceIte,
    List.cons_append, List.nil_append] at hE
  by_cases h1 : env.privCertErr ≠ 0
  · rw [if_pos h1, conn_done_fail] at hE
    subst hE
    exact absurd hok h1
  rw [if_neg h1] at hE
  by_cases h2 : env.pubCertErr ≠ 0
  · rw [if_pos h2, conn_cleanup_cert_fail] at hE
    subst hE
    exact absurd hok (conn_retval_ne1 _ _ h2)
  rw [if_neg h2] at hE
  by_cases h3 : env.sockErr ≠ 0
  · rw [if_pos h3, conn_cleanup_server_cert_fail] at hE
    subst hE
    exact absurd hok (conn_retval_ne _ _ _ (by decide))
  rw [if_neg h3] at hE
  by_cases h4 : env.clientIdErr ≠ 0
  · rw [if_pos h4, conn_cleanup_sock_fail] at hE
    subst hE
    exact absurd hok (conn_retval_ne _ _ _ h4)
  rw [if_neg h4] at hE
  by_cases h5 : env.clientPubkeyErr ≠ 0
  · rw [if_pos h5, conn_cleanup_sock_fail] at hE
    subst hE
    exact absurd hok (conn_retval_ne _ _ _ h5)
  rw [if_neg h5] at hE
  by_cases h6 : env.clientPrivkeyErr ≠ 0
  · rw [if_pos h6, conn_cleanup_sock_fail] at hE
    subst hE
    exact absurd hok (conn_retval_ne _ _ _ h6)
  rw [if_neg h6] at hE
  by_cases h7 : env.serverIdErr ≠ 0
  · rw [if_pos h7, conn_cleanup_sock_fail] at hE
    subst hE
    exact absurd hok (conn_retval_ne _ _ _ h7)
  rw [if_neg h7] at hE
  by_cases h8 : env.serverPubkeyErr ≠ 0
  · rw [if_pos h8, conn_cleanup_sock_fail] at hE
    subst hE
    exact absurd hok (conn_retval_ne _ _ _ h8)
  rw [if_neg h8] at hE
  by_cases h9 : env.sendReqErr ≠ 0
  · rw [if_pos h9, conn_cleanup_sock_fail] at hE
    subst hE
    exact absurd hok (conn_retval_ne _ _ _ (by decide))
  rw [if_neg h9] at hE
  by_cases h10 : env.recvRespErr ≠ 0
  · rw [if_pos h10, conn_cleanup_handshake_req_fail] at hE
    subst hE
    exact absurd hok (conn_retval_ne _ _ _ (by decide))
  rw [if_neg h10] at hE
  by_cases h11 : env.srvIdFromServer ≠ env.pinnedServerId
  · rw [if_pos h11, conn_cleanup_handshake_resp_fail] at hE
    subst hE
    exact absurd hok (conn_retval_ne _ _ _ (by decide))
  rw [if_neg h11] at hE
  by_cases h12 : env.srvPubkeyFromServer.length ≠ env.pinnedServerKey.length
      ∨ env.srvPubkeyFromServer ≠ env.pinnedServerKey
  · rw [if_pos h12, conn_cleanup_handshake_resp_fail] at hE
    subst hE
    exact absurd hok (conn_retval_ne _ _ _ (by decide))
  rw [if_neg h12] at hE
  by_cases h13 : env.sendAckErr ≠ 0
  · rw [if_pos h13, conn_cleanup_handshake_resp_fail] at hE
    subst hE
    exact absurd hok (conn_retval_ne _ _ _ (by decide))
  rw [if_neg h13] at hE
  by_cases h14 : env.recvAckErr ≠ 0
  · rw [if_pos h14, conn_cleanup_handshake_resp_fail] at hE
    subst hE
    exact absurd hok (conn_retval_ne _ _ _ (by decide))
  rw [if_neg h14] at hE
  by_cases h15 : env.ackDecodeErr ≠ 0
  · rw [if_pos h15, conn_cleanup_resp_fail] at hE
    subst hE
    exact absurd hok (conn_retval_ne _ _ _ (by decide))
  rw [if_neg h15] at hE
  by_cases h16 : env.ackHeader.request_id ≠ PROTOCOL_REQ_ID_HANDSHAKE_ACKNOWLEDGE
  · rw [if_pos h16, conn_cleanup_resp_fail] at hE
    subst hE
    exact absurd hok (conn_retval_ne _ _ _ (by decide))
  rw [if_neg h16] at hE
  by_cases h17 : env.ackHeader.status ≠ 0
  · rw [if_pos h17, conn_cleanup_resp_fail] at hE
    subst hE
    exact absurd hok (conn_retval_ne _ _ _ (by decide))
  rw [if_neg h17, conn_cleanup_resp_success] at hE
  by_cases hsrv : env.serverCertReleaseErr ≠ 0
  · rw [if_pos hsrv, conn_done_success_fail _ _ _ _ _ hsrv] at hE
    subst hE
    exact absurd hok (conn_retval_ne1 _ _ hsrv)
  rw [if_neg hsrv, conn_done_success_ok] at hE
  subst hE
  exact ⟨rfl, rfl, suite.kex_size _ _ _ _⟩

/-- Witness for C3: a fully successful concrete handshake run returns
client_iv = 2, server_iv = 2 and a shared secret of the suite's
key-derivation size, by the theorem at a concrete environment. -/
theorem agentd_connection_init_success_post_witness :
    (agentd_connection_init velo_suite_model
      ⟨0, 0, 0, 0, 0, 0, 0, 0, [1], [2], [], [], 0, 0, [1], [2], [], 0, 0, 0,
        ⟨PROTOCOL_REQ_ID_HANDSHAKE_ACKNOWLEDGE, 0, 0⟩, 0, 0⟩).clientIV = 2
    ∧ (agentd_connection_init velo_suite_model
      ⟨0, 0, 0, 0, 0, 0, 0, 0, [1], [2], [], [], 0, 0, [1], [2], [], 0, 0, 0,
        ⟨PROTOCOL_REQ_ID_HANDSHAKE_ACKNOWLEDGE, 0, 0⟩, 0, 0⟩).serverIV = 2
    ∧ (agentd_connection_init velo_suite_model
      ⟨0, 0, 0, 0, 0, 0, 0, 0, [1], [2], [], [], 0, 0, [1], [2], [], 0, 0, 0,
        ⟨PROTOCOL_REQ_ID_HANDSHAKE_ACKNOWLEDGE, 0, 0⟩, 0, 0⟩).sharedSecret.length
      = velo_suite_model.keySize := by
  exact agentd_connection_init_success_post velo_suite_model
    ⟨0, 0, 0, 0, 0, 0, 0, 0, [1], [2], [], [], 0, 0, [1], [2], [], 0, 0, 0,
      ⟨PROTOCOL_REQ_ID_HANDSHAKE_ACKNOWLEDGE, 0, 0⟩, 0, 0⟩ (by decide)
